import Mathlib

/-
  Verification development for the music_download_v2 repository.
  Shallow embedding of the Python sources:
    src/utils/input_parser.py, src/utils/job_manager.py,
    src/downloaders/spotify_handler.py, src/downloaders/vibe_handler.py,
    src/app.py, src/cli_test.py.
  Strings are modelled as Lean Strings; most character-level operations
  are carried out on List Char (String.data) with structural recursion so
  that concrete instances evaluate in the kernel.
-/

namespace MusicDL

/-! ## Character-list string utilities (models of Python str operations) -/

/-- Model of Python `s.startswith(p)` on character lists. -/
def startsWithL : List Char → List Char → Bool
  | [], _ => true
  | _ :: _, [] => false
  | p :: ps, c :: cs => p == c && startsWithL ps cs

/-- Model of Python `pat in s` (substring containment). -/
def occursL (pat : List Char) : List Char → Bool
  | [] => pat.isEmpty
  | c :: rest => startsWithL pat (c :: rest) || occursL pat rest

/-- Auxiliary for counting non-overlapping, left-to-right greedy occurrences
of a pattern; the Nat argument is the number of characters still to skip
after a match. -/
def countSubAux (pat : List Char) : List Char → Nat → Nat
  | [], _ => 0
  | c :: rest, 0 =>
      if startsWithL pat (c :: rest) then 1 + countSubAux pat rest (pat.length - 1)
      else countSubAux pat rest 0
  | _ :: rest, k + 1 => countSubAux pat rest k

/-- Number of non-overlapping occurrences of `pat`; for non-empty `pat`,
Python `len(s.split(pat)) = countSub pat s + 1`. -/
def countSub (pat : List Char) (s : List Char) : Nat := countSubAux pat s 0

/-- Python whitespace test for str.strip / str.split. -/
def isSpaceCh (c : Char) : Bool := c == ' ' || c == '\t' || c == '\n' || c == '\r'

/-- Model of Python `s.strip()` on character lists. -/
def stripL (l : List Char) : List Char :=
  ((l.dropWhile isSpaceCh).reverse.dropWhile isSpaceCh).reverse

/-- Model of Python `s.lower()` on character lists (ASCII case). -/
def toLowerL (l : List Char) : List Char := l.map Char.toLower

/-- Auxiliary word counter: the Bool records whether we are inside a word. -/
def wordsAux : List Char → Bool → Nat
  | [], _ => 0
  | c :: rest, inW =>
      if isSpaceCh c then wordsAux rest false
      else (if inW then 0 else 1) + wordsAux rest true

/-- Model of Python `len(s.split())`: count of whitespace-separated words. -/
def wordCount (l : List Char) : Nat := wordsAux l false

/-- Split on a single character, keeping empty segments, as Python
`s.split(c)` for a one-character separator. -/
def splitChar (sep : Char) : List Char → List (List Char)
  | [] => [[]]
  | c :: rest =>
      if c == sep then [] :: splitChar sep rest
      else
        match splitChar sep rest with
        | [] => [[c]]
        | p :: ps => (c :: p) :: ps

/-- Model of Python `s.split(c, 1)`: the text before and after the first
occurrence of the character, when present. -/
def breakAtChar (sep : Char) : List Char → Option (List Char × List Char)
  | [] => none
  | c :: rest =>
      if c == sep then some ([], rest)
      else (breakAtChar sep rest).map (fun p => (c :: p.1, p.2))

/-- The text before the first occurrence of `pat`, when `pat` occurs. -/
def cutAtSub (pat : List Char) : List Char → Option (List Char)
  | [] => none
  | c :: rest =>
      if startsWithL pat (c :: rest) then some []
      else (cutAtSub pat rest).map (fun b => c :: b)

/-! ## urllib.parse.urlparse model (scheme and netloc only)

`urlparse` lower-cases a valid scheme (first char an ASCII letter, the
rest letters, digits, `+`, `-`, `.`, ending at the first `:`); the netloc
is the text after a leading `//` up to the first `/`, `?` or `#`.  A
netloc containing `[` without `]` (or vice versa) raises ValueError,
modelled as `none`. -/

def validSchemeChar (c : Char) : Bool :=
  c.isAlpha || c.isDigit || c == '+' || c == '-' || c == '.'

/-- Split off the URL scheme as urlparse does: returns (scheme, rest). -/
def splitScheme (l : List Char) : List Char × List Char :=
  match breakAtChar ':' l with
  | none => ([], l)
  | some (before, after) =>
      match before with
      | [] => ([], l)
      | c :: cs =>
          if c.isAlpha && (c :: cs).all validSchemeChar then (toLowerL (c :: cs), after)
          else ([], l)

/-- The netloc component; `none` models the ValueError raised on an
unbalanced bracket in the netloc. -/
def urlNetloc (l : List Char) : Option (List Char) :=
  let rest := (splitScheme l).2
  if startsWithL ['/', '/'] rest then
    let netloc := (rest.drop 2).takeWhile (fun c => !(c == '/' || c == '?' || c == '#'))
    if (netloc.contains '[') != (netloc.contains ']') then none else some netloc
  else some []

/-! ## src/utils/input_parser.py -/

/-- `is_url` from src/utils/input_parser.py: urlparse wrapped in
try/except; true when both scheme and netloc are non-empty. -/
def is_url (l : List Char) : Bool :=
  match urlNetloc l with
  | none => false
  | some netloc => !(splitScheme l).1.isEmpty && !netloc.isEmpty

/-- The vibe keyword list from `looks_like_search_query`. -/
def vibeKeywords : List String :=
  ["music for", "playlist", "vibe", "mood", "feeling",
   "upbeat", "chill", "relaxing", "energetic", "party",
   "workout", "study", "focus", "sleep", "background"]

/-- `looks_like_search_query` from src/utils/input_parser.py. -/
def looks_like_search_query (text : List Char) : Bool :=
  let tl := toLowerL text
  if vibeKeywords.any (fun k => occursL k.data tl) then false
  else if wordCount text ≤ 5 then true
  else false

/-- The non-URL tail of `detect_input_type`: the " - " search-query check,
the `looks_like_search_query` heuristic, and the vibe default. -/
def detectFallThrough (s : List Char) : String × String :=
  if occursL (" - ".data) s && countSub (" - ".data) s + 1 == 2 then
    ("search_query", String.mk s)
  else if looks_like_search_query s then ("search_query", String.mk s)
  else ("vibe_description", String.mk s)

/-- The lower-cased netloc inspected by `detect_input_type`
(`parsed.netloc.lower()`); only reached when `is_url` held, so the
ValueError case is arbitrary. -/
def urlDomain (l : List Char) : List Char :=
  match urlNetloc l with
  | some nl => toLowerL nl
  | none => []

/-- `detect_input_type` from src/utils/input_parser.py. -/
def detect_input_type (user_input : String) : String × String :=
  let s := stripL user_input.data
  if is_url s then
    let domain := urlDomain s
    if occursL ("youtube.com".data) domain || occursL ("youtu.be".data) domain then
      if occursL ("playlist".data) s || occursL ("list=".data) s then
        ("youtube_playlist", String.mk s)
      else ("youtube_video", String.mk s)
    else if occursL ("spotify.com".data) domain then
      if occursL ("/playlist/".data) s then ("spotify_playlist", String.mk s)
      else if occursL ("/album/".data) s then ("spotify_album", String.mk s)
      else if occursL ("/track/".data) s then ("spotify_track", String.mk s)
      else ("spotify_track", String.mk s)
    else detectFallThrough s
  else detectFallThrough s

/-- The seven categories `detect_input_type` can produce. -/
def allCategories : List String :=
  ["youtube_video", "youtube_playlist", "spotify_playlist", "spotify_album",
   "spotify_track", "search_query", "vibe_description"]

/-- The five URL-derived categories. -/
def urlCategories : List String :=
  ["youtube_video", "youtube_playlist", "spotify_track", "spotify_playlist",
   "spotify_album"]

/-! ## Data model (src/utils/job_manager.py, src/downloaders) -/

/-- An entry of a `failed_tracks` list: {artist, title, error}. -/
structure FailedTrack where
  artist : String
  title : String
  error : String
deriving DecidableEq, Repr

/-- A track dict {artist, title} as produced by the parser or generator;
a missing key is modelled by the default empty string (`track.get('artist', '')`). -/
structure Track where
  artist : String
  title : String
deriving DecidableEq, Repr

/-- The result-summary dict built by the MusicDownloader entry points.
Missing keys in the ad-hoc dict of app.py `process_download` are modelled
by the defaults `update_from_result` would supply (0, [], ""). -/
structure DLResult where
  success : Bool
  total : Nat
  completed : Nat
  failed : Nat
  failed_tracks : List FailedTrack
  output_dir : String
  errors : List String
deriving DecidableEq, Repr

/-- The Job dataclass from src/utils/job_manager.py.  Timestamps are
strings supplied by the caller (datetime.now is an oracle input). -/
structure Job where
  job_id : String
  input_type : String
  input_value : String
  status : String
  total_tracks : Nat
  completed_tracks : Nat
  failed_tracks : Nat
  error_messages : List String
  output_directory : String
  created_at : String
  completed_at : Option String
  failed_track_details : List FailedTrack
deriving DecidableEq, Repr

/-- `Job.update_from_result` from src/utils/job_manager.py; `now` models
`datetime.now().isoformat()`. -/
def Job.update_from_result (j : Job) (result : DLResult) (now : String) : Job :=
  { j with
    total_tracks := result.total
    completed_tracks := result.completed
    failed_tracks := result.failed
    failed_track_details := result.failed_tracks
    error_messages :=
      if result.errors.isEmpty then j.error_messages
      else j.error_messages ++ result.errors
    output_directory :=
      if result.output_dir == "" then j.output_directory else result.output_dir
    status :=
      if result.completed > 0 then
        if result.failed == 0 then "completed" else "completed_with_errors"
      else "failed"
    completed_at := some now }

/-- First-match lookup in the job map (`self.jobs.get(job_id)`). -/
def lookupJob : List (String × Job) → String → Option Job
  | [], _ => none
  | (k, v) :: rest, i => if k == i then some v else lookupJob rest i

/-- Python dict assignment `self.jobs[job_id] = job`: replace the first
binding of the key in place, or append a new binding. -/
def setJob : List (String × Job) → String → Job → List (String × Job)
  | [], i, j => [(i, j)]
  | (k, v) :: rest, i, j =>
      if k == i then (k, j) :: rest else (k, v) :: setJob rest i j

/-- `JobManager.create_job`: builds a queued job with zero counters and
stores it; `freshId` models `uuid.uuid4()` and `now` the creation time. -/
def create_job (store : List (String × Job)) (freshId ty val now : String) :
    Job × List (String × Job) :=
  let j : Job :=
    { job_id := freshId, input_type := ty, input_value := val, status := "queued",
      total_tracks := 0, completed_tracks := 0, failed_tracks := 0,
      error_messages := [], output_directory := "", created_at := now,
      completed_at := none, failed_track_details := [] }
  (j, setJob store freshId j)

/-! ## src/downloaders/spotify_handler.py (yt-dlp modelled as an oracle) -/

/-- The branch taken by the external calls inside one
`download_search_query` try block. -/
inductive SearchOutcome where
  | noResults
  | invalidFirst
  | ok
  | raised (msg : String)
deriving DecidableEq, Repr

/-- `MusicDownloader.download_search_query`: builds the result summary for
each possible branch; `outputDir` is the downloader's `self.output_dir`. -/
def download_search_query (query : String) (outcome : SearchOutcome)
    (outputDir : String) : DLResult :=
  match outcome with
  | .noResults =>
      { success := false, total := 1, completed := 0, failed := 1,
        failed_tracks := [⟨"Unknown", query, "No search results found"⟩],
        output_dir := outputDir,
        errors := ["No results found for: " ++ query] }
  | .invalidFirst =>
      { success := false, total := 1, completed := 0, failed := 1,
        failed_tracks := [⟨"Unknown", query, "No valid result found"⟩],
        output_dir := outputDir, errors := [] }
  | .ok =>
      { success := true, total := 1, completed := 1, failed := 0,
        failed_tracks := [], output_dir := outputDir, errors := [] }
  | .raised msg =>
      { success := false, total := 1, completed := 0, failed := 1,
        failed_tracks := [⟨"Unknown", query, msg⟩],
        output_dir := outputDir,
        errors := ["Search error: " ++ msg] }

/-- The loop of `download_track_list`: accumulated (completed, failed,
failed_tracks); `oracle i` is the outcome of the i-th item that actually
reaches a search (items missing artist or title are counted failed without
searching). -/
def runTrackList (oracle : Nat → SearchOutcome) (outputDir : String) :
    List Track → Nat → Nat × Nat × List FailedTrack
  | [], _ => (0, 0, [])
  | t :: rest, i =>
      if t.artist == "" || t.title == "" then
        let acc := runTrackList oracle outputDir rest i
        (acc.1, acc.2.1 + 1,
          FailedTrack.mk t.artist t.title "Missing artist or title" :: acc.2.2)
      else
        let r := download_search_query (t.artist ++ " " ++ t.title) (oracle i) outputDir
        let acc := runTrackList oracle outputDir rest (i + 1)
        (r.completed + acc.1, r.failed + acc.2.1, r.failed_tracks ++ acc.2.2)

/-- `MusicDownloader.download_track_list`: iterates the tracks, sums the
per-item counts, and sets overall success to `completed > 0`. -/
def download_track_list (tracks : List Track) (playlist_name : String)
    (oracle : Nat → SearchOutcome) (outputDir : String) : DLResult :=
  let acc := runTrackList oracle outputDir tracks 0
  { success := decide (0 < acc.1), total := tracks.length, completed := acc.1,
    failed := acc.2.1, failed_tracks := acc.2.2,
    output_dir := outputDir ++ "/" ++ playlist_name, errors := [] }

/-- `MusicDownloader._is_spotify_url`. -/
def isSpotifyUrl (url : String) : Bool :=
  occursL ("spotify.com".data) (toLowerL url.data)

/-- The regex search for `/playlist/([a-zA-Z0-9]+)`: the first position
where `/playlist/` is followed by at least one alphanumeric character. -/
def playlistIdSearch : List Char → Option (List Char)
  | [] => none
  | c :: rest =>
      if startsWithL ("/playlist/".data) (c :: rest) then
        let idc := (List.drop 10 (c :: rest)).takeWhile Char.isAlphanum
        if idc.isEmpty then playlistIdSearch rest else some idc
      else playlistIdSearch rest

/-- Behavior of the yt-dlp calls on the YouTube path of `download_url`:
`playlistEntries n dl` means extract_info returned a playlist with `n`
non-null entries and `dl` records an exception message raised by the
download call, when any. -/
inductive YtOutcome where
  | raisedEarly (msg : String)
  | noInfo
  | playlistEntries (n : Nat) (dl : Option String)
  | single (dl : Option String)

/-- Oracle for one `download_url` call: the Spotify playlist track
extraction result, the per-item search outcomes of a delegated
`download_track_list`, and the yt-dlp behavior on the YouTube path. -/
structure UrlOracle where
  spotifyTracks : Option (List Track)
  searchOracle : Nat → SearchOutcome
  yt : YtOutcome

/-- `MusicDownloader.download_url` from src/downloaders/spotify_handler.py. -/
def download_url (url : String) (o : UrlOracle) (outputDir : String) : DLResult :=
  let base : DLResult :=
    { success := false, total := 0, completed := 0, failed := 0,
      failed_tracks := [], output_dir := outputDir, errors := [] }
  let noTracks : DLResult :=
    { base with errors :=
        ["Could not extract tracks from Spotify playlist",
         "Make sure the playlist is public, or try a YouTube playlist instead"] }
  if isSpotifyUrl url && occursL ("/playlist/".data) url.data then
    match o.spotifyTracks with
    | none => noTracks
    | some [] => noTracks
    | some (t :: ts) =>
        let name :=
          match playlistIdSearch url.data with
          | some idc => "spotify_playlist_" ++ String.mk idc
          | none => "spotify_playlist"
        download_track_list (t :: ts) name o.searchOracle outputDir
  else if isSpotifyUrl url then
    { base with errors :=
        ["Spotify track/album URLs require API credentials (Premium account)",
         "Try searching for the track instead: 'Artist - Song Name'"] }
  else
    match o.yt with
    | .raisedEarly msg =>
        { base with errors := ["Download error: " ++ msg] }
    | .noInfo =>
        { base with errors := ["Could not extract info from URL: " ++ url] }
    | .playlistEntries n none =>
        { base with success := true, total := n, completed := n }
    | .playlistEntries n (some msg) =>
        { base with total := n, failed := n,
                    errors := ["Download error: " ++ msg] }
    | .single none =>
        { base with success := true, total := 1, completed := 1 }
    | .single (some msg) =>
        { base with total := 1, failed := 1,
                    errors := ["Download error: " ++ msg] }

/-- The ad-hoc failure dict built in app.py `process_download` for input
types with no handler; its missing keys behave as the defaults
`update_from_result` supplies. -/
def unsupportedResult (input_type : String) : DLResult :=
  { success := false, total := 0, completed := 0, failed := 0,
    failed_tracks := [], output_dir := "",
    errors := ["Input type " ++ input_type ++ " not supported yet"] }

/-- Result summaries the repository can feed to `update_from_result`: the
three MusicDownloader entry points and the unsupported-type dict. -/
inductive Producible : DLResult → Prop
  | search : ∀ q o dir, Producible (download_search_query q o dir)
  | trackList : ∀ ts name o dir, Producible (download_track_list ts name o dir)
  | url : ∀ u o dir, Producible (download_url u o dir)
  | unsupported : ∀ ty, Producible (unsupportedResult ty)

/-- Jobs reachable through the public operations: creation, direct status
assignment, the task-boundary failure handler (status `failed` plus an
appended message), and `update_from_result` on a producible summary. -/
inductive ReachableJob : Job → Prop
  | created : ∀ store i ty val now, ReachableJob (create_job store i ty val now).1
  | setStatus : ∀ j s, ReachableJob j → ReachableJob { j with status := s }
  | failMsg : ∀ j m, ReachableJob j →
      ReachableJob { j with status := "failed",
                            error_messages := j.error_messages ++ [m] }
  | updated : ∀ j r now, ReachableJob j → Producible r →
      ReachableJob (j.update_from_result r now)

/-! ## Concrete values used by witnesses and counterexamples -/

/-- A concrete queued job used by witnesses. -/
def jobW : Job := (create_job [] "w1" "search_query" "MGMT - Kids" "t0").1

/-- Result summary with 5 completed, 0 failed. -/
def resW50 : DLResult :=
  { success := true, total := 5, completed := 5, failed := 0,
    failed_tracks := [], output_dir := "downloads", errors := [] }

/-- Result summary with 3 completed, 2 failed. -/
def resW32 : DLResult :=
  { success := true, total := 5, completed := 3, failed := 2,
    failed_tracks := [], output_dir := "downloads", errors := [] }

/-- Result summary with 0 completed, 3 failed. -/
def resW03 : DLResult :=
  { success := false, total := 3, completed := 0, failed := 3,
    failed_tracks := [], output_dir := "downloads", errors := [] }

/-- The summary `download_track_list` returns on the empty track list. -/
def resEmptyList : DLResult :=
  download_track_list [] "pasted_playlist" (fun _ => SearchOutcome.ok) "downloads"

/-! ## Failure export (src/utils/job_manager.py, save_failed_tracks_csv) -/

/-- `JobManager.save_failed_tracks_csv`: result is the list of data rows
written to the per-job CSV file, or `none` when no file is written; the
method returns early exactly when `failed_track_details` is empty, and
otherwise writes one row per entry of that list. -/
def save_failed_tracks_csv (job : Job) : Option (List FailedTrack) :=
  if job.failed_track_details.isEmpty then none
  else some job.failed_track_details

/-- Oracle for the C5 counterexample: a YouTube playlist whose download
call raises after extract_info found 5 entries. -/
def urlOracleYtExn : UrlOracle :=
  { spotifyTracks := none, searchOracle := fun _ => SearchOutcome.ok,
    yt := YtOutcome.playlistEntries 5 (some "network error") }

/-- The summary `download_url` returns in that scenario: total 5,
completed 0, failed 5, but an empty `failed_tracks` list. -/
def resYtExn : DLResult :=
  download_url "https://youtube.com/playlist?list=PL1" urlOracleYtExn "downloads"

/-- A reachable job holding that summary. -/
def jobYtExn : Job :=
  ((create_job [] "c5" "youtube_playlist"
      "https://youtube.com/playlist?list=PL1" "t0").1).update_from_result resYtExn "t1"

/-- A job with exactly one failed-track detail row, from a failed search. -/
def jobOneFailed : Job :=
  ((create_job [] "c5w" "search_query" "q" "t0").1).update_from_result
    (download_search_query "q" SearchOutcome.noResults "downloads") "t1"

/-! ## src/downloaders/vibe_handler.py -/

/-- The noise markers skipped by `_parse_playlist_response`. -/
def skipMarkers : List String :=
  ["artist,title", "here", "based on", "playlist", "---", "```"]

/-- The character set of `line.lstrip('0123456789.- ')`. -/
def respLstripSet (c : Char) : Bool :=
  c.isDigit || c == '.' || c == '-' || c == ' '

/-- One iteration of the `_parse_playlist_response` loop: the track
appended for this line, if any. -/
def parseRespLine (l : List Char) : Option Track :=
  let line := stripL l
  if line.isEmpty then none
  else if skipMarkers.any (fun m => occursL m.data (toLowerL line)) then none
  else if line.contains ',' then
    let line2 := line.dropWhile respLstripSet
    match breakAtChar ',' line2 with
    | some (a, t) =>
        let artist := stripL a
        let title := stripL t
        if !artist.isEmpty && !title.isEmpty then
          some (Track.mk (String.mk artist) (String.mk title))
        else none
    | none => none
  else none

/-- `VibePlaylistGenerator._parse_playlist_response`. -/
def parse_playlist_response (response_text : String) : List Track :=
  (splitChar '\n' (stripL response_text.data)).filterMap parseRespLine

/-- Behavior of the Ollama POST inside `generate_playlist`: the request
may time out, fail to connect, raise otherwise, or return a status code
and a response text (`result.get('response', '')`). -/
inductive GenOutcome where
  | timedOut
  | connFailed
  | raised (msg : String)
  | resp (status : Nat) (text : String)

/-- `VibePlaylistGenerator.generate_playlist`: `none` on any request
failure, non-200 status, empty response text, or zero parsed tracks;
otherwise the parsed track list.  `vibe` and `num_tracks` only shape the
prompt sent to the backend, so they do not constrain the output. -/
def generate_playlist (vibe : String) (num_tracks : Nat) (o : GenOutcome) :
    Option (List Track) :=
  match o with
  | .timedOut => none
  | .connFailed => none
  | .raised _ => none
  | .resp status text =>
      if status != 200 then none
      else if text == "" then none
      else
        let tracks := parse_playlist_response text
        if tracks.isEmpty then none else some tracks

/-! ## Durable persistence (JobManager.save_jobs / load_jobs)

`save_jobs` writes `{job_id: asdict(job)}` as JSON; `load_jobs` reads it
back and rebuilds each Job with `Job(**job_data)`.  JSON values are
modelled by `JVal`; the counters are JSON numbers, `completed_at` is null
or a string, and the two list fields are arrays. -/

/-- JSON values as written by json.dump and read back by json.load. -/
inductive JVal where
  | jstr (v : String)
  | jnat (v : Nat)
  | jnull
  | jarr (vs : List JVal)
  | jobj (kvs : List (String × JVal))

/-- dataclasses.asdict on a FailedTrack entry. -/
def ftToDict (t : FailedTrack) : JVal :=
  .jobj [("artist", .jstr t.artist), ("title", .jstr t.title),
         ("error", .jstr t.error)]

/-- First-match key lookup in a JSON object. -/
def jGet : List (String × JVal) → String → Option JVal
  | [], _ => none
  | (k, v) :: rest, key => if k == key then some v else jGet rest key

/-- Coercions applied when rebuilding a Job from JSON data. -/
def asStr : JVal → Option String
  | .jstr s => some s
  | _ => none

/-- JSON number to counter. -/
def asNat : JVal → Option Nat
  | .jnat n => some n
  | _ => none

/-- JSON null-or-string to the optional completed_at field. -/
def asOptStr : JVal → Option (Option String)
  | .jnull => some none
  | .jstr s => some (some s)
  | _ => none

/-- Decode a JSON array of strings. -/
def decodeStrList : List JVal → Option (List String)
  | [] => some []
  | v :: rest =>
      match asStr v, decodeStrList rest with
      | some s, some r => some (s :: r)
      | _, _ => none

/-- Decode a FailedTrack entry. -/
def ftOfDict (v : JVal) : Option FailedTrack :=
  match v with
  | .jobj kvs =>
      match jGet kvs "artist", jGet kvs "title", jGet kvs "error" with
      | some (.jstr a), some (.jstr t), some (.jstr e) =>
          some (FailedTrack.mk a t e)
      | _, _, _ => none
  | _ => none

/-- Decode a JSON array of FailedTrack entries. -/
def decodeFtList : List JVal → Option (List FailedTrack)
  | [] => some []
  | v :: rest =>
      match ftOfDict v, decodeFtList rest with
      | some t, some r => some (t :: r)
      | _, _ => none

/-- dataclasses.asdict on a Job, in dataclass field order. -/
def jobToDict (j : Job) : JVal :=
  .jobj [("job_id", .jstr j.job_id),
         ("input_type", .jstr j.input_type),
         ("input_value", .jstr j.input_value),
         ("status", .jstr j.status),
         ("total_tracks", .jnat j.total_tracks),
         ("completed_tracks", .jnat j.completed_tracks),
         ("failed_tracks", .jnat j.failed_tracks),
         ("error_messages", .jarr (j.error_messages.map JVal.jstr)),
         ("output_directory", .jstr j.output_directory),
         ("created_at", .jstr j.created_at),
         ("completed_at",
           match j.completed_at with
           | none => JVal.jnull
           | some ts => JVal.jstr ts),
         ("failed_track_details", .jarr (j.failed_track_details.map ftToDict))]

/-- `Job(**job_data)` applied to loaded JSON data. -/
def jobOfDict (v : JVal) : Option Job :=
  match v with
  | .jobj kvs =>
      (jGet kvs "job_id" >>= asStr) >>= fun ji =>
      (jGet kvs "input_type" >>= asStr) >>= fun it =>
      (jGet kvs "input_value" >>= asStr) >>= fun iv =>
      (jGet kvs "status" >>= asStr) >>= fun st =>
      (jGet kvs "total_tracks" >>= asNat) >>= fun tt =>
      (jGet kvs "completed_tracks" >>= asNat) >>= fun ct =>
      (jGet kvs "failed_tracks" >>= asNat) >>= fun ftc =>
      (match jGet kvs "error_messages" with
       | some (.jarr vs) => decodeStrList vs
       | _ => none) >>= fun em =>
      (jGet kvs "output_directory" >>= asStr) >>= fun od =>
      (jGet kvs "created_at" >>= asStr) >>= fun ca =>
      (jGet kvs "completed_at" >>= asOptStr) >>= fun cp =>
      (match jGet kvs "failed_track_details" with
       | some (.jarr vs) => decodeFtList vs
       | _ => none) >>= fun fd =>
      some { job_id := ji, input_type := it, input_value := iv, status := st,
             total_tracks := tt, completed_tracks := ct, failed_tracks := ftc,
             error_messages := em, output_directory := od, created_at := ca,
             completed_at := cp, failed_track_details := fd }
  | _ => none

/-- `JobManager.save_jobs`: the JSON object written to the jobs file. -/
def save_jobs (store : List (String × Job)) : JVal :=
  .jobj (store.map (fun p => (p.1, jobToDict p.2)))

/-- `JobManager.load_jobs` on a fresh manager (simulated restart): rebuild
the job map from the stored JSON object. -/
def load_jobs (v : JVal) : List (String × Job) :=
  match v with
  | .jobj kvs => kvs.filterMap (fun p => (jobOfDict p.2).map (fun j => (p.1, j)))
  | _ => []

/-! ## Background tasks (src/app.py process_download / process_vibe /
process_track_list)

Each task body is modelled as a function from the found job and an oracle
describing the behavior of its fallible steps to the sequence of
job-store writes it performs, paired with the exception message caught at
the task boundary, when one was raised.  `update_job` itself cannot raise
(dict assignment, and `save_jobs` swallows its own errors); the downloader
call and `save_failed_tracks_csv` (whose `os.makedirs` sits outside the
inner try) are the fallible steps. -/

/-- A possibly-raising step: its value, or the exception message. -/
inductive StepResult (α : Type) where
  | ok (a : α)
  | raised (msg : String)

/-- The task-boundary exception handler of app.py: force terminal status
`failed` and append the exception text. -/
def failJob (j : Job) (msg : String) : Job :=
  { j with status := "failed", error_messages := j.error_messages ++ [msg] }

/-- Oracle for `process_download` / `process_track_list`: the outcome of
the downloader call and of `save_failed_tracks_csv`. -/
structure DlTaskOracle where
  dlStep : StepResult DLResult
  csvStep : Option String

/-- Oracle for `process_vibe`: `generate_playlist` returns None on any
internal failure instead of raising, then download and csv as above. -/
structure VibeTaskOracle where
  genStep : Option (List Track)
  dlStep : StepResult DLResult
  csvStep : Option String

/-- Which background task runs, with its oracle. -/
inductive TaskRun where
  | dl (o : DlTaskOracle)
  | vibe (o : VibeTaskOracle)
  | trackList (o : DlTaskOracle)

/-- The common download/update/export tail of the task bodies: the job
writes performed after `j1`, and the caught exception, if any. -/
def taskTail (writes : List Job) (j1 : Job) (dlStep : StepResult DLResult)
    (csvStep : Option String) (now : String) : List Job × Option String :=
  match dlStep with
  | .raised m => (writes ++ [failJob j1 m], some m)
  | .ok r =>
      let j2 := j1.update_from_result r now
      if j2.failed_tracks > 0 then
        match csvStep with
        | some m => (writes ++ [j2, failJob j2 m], some m)
        | none => (writes ++ [j2], none)
      else (writes ++ [j2], none)

/-- The body of one background task, given the job found in the store:
the sequence of job-store writes and the exception caught at the task
boundary, if any. -/
def runTaskBody (job : Job) (tr : TaskRun) (now : String) :
    List Job × Option String :=
  match tr with
  | .dl o =>
      let j1 := { job with status := "downloading" }
      taskTail [j1] j1 o.dlStep o.csvStep now
  | .trackList o =>
      let j1 := { job with status := "downloading" }
      taskTail [j1] j1 o.dlStep o.csvStep now
  | .vibe o =>
      let j1 := { job with status := "generating" }
      match o.genStep with
      | none => ([j1, failJob j1 "Failed to generate playlist from vibe"], none)
      | some [] => ([j1, failJob j1 "Failed to generate playlist from vibe"], none)
      | some (_ :: _) =>
          let j2 := { j1 with status := "downloading" }
          taskTail [j1, j2] j2 o.dlStep o.csvStep now

/-- A background task as spawned on a store: look the job up by id, then
run the body; the guard path (id not found) performs no writes. -/
def runTask (store : List (String × Job)) (job_id : String) (tr : TaskRun)
    (now : String) : List Job × Option String :=
  match lookupJob store job_id with
  | none => ([], none)
  | some job => runTaskBody job tr now

/-- Last element of a write trace, with a default for the empty trace. -/
def lastD (d : Job) : List Job → Job
  | [] => d
  | j :: rest =>
      match rest with
      | [] => j
      | _ :: _ => lastD d rest

/-- Store and task used by the C4 witness. -/
def storeW : List (String × Job) :=
  (create_job [] "w1" "search_query" "MGMT - Kids" "t0").2

/-- A download task whose downloader call raises "boom". -/
def taskRunW : TaskRun :=
  TaskRun.dl { dlStep := StepResult.raised "boom", csvStep := none }

/-! ## parse_playlist_text (modelled from the spec)

`parse_playlist_text` is invoked on `MusicDownloader` in src/app.py and
src/cli_test.py, but no definition of it exists anywhere under src/; the
following definitions model it from spec section 4.2. -/

/-- The bare duration pattern of the spec: `D:DD` or `DD:DD`. -/
def isDuration (l : List Char) : Bool :=
  match l with
  | [d1, c, m1, m2] => d1.isDigit && c == ':' && m1.isDigit && m2.isDigit
  | [d1, d2, c, m1, m2] =>
      d1.isDigit && d2.isDigit && c == ':' && m1.isDigit && m2.isDigit
  | _ => false

/-- Strip a leading numbering prefix of the form digits followed by
". ", when present. -/
def stripNumbering (l : List Char) : List Char :=
  let ds := l.takeWhile Char.isDigit
  if ds.isEmpty then l
  else
    match l.drop ds.length with
    | '.' :: ' ' :: r => r
    | _ => l

/-- The suffix-noise marker named by the spec. -/
def noiseMark : List Char := (" - Remastered").data

/-- Strip known suffix noise (text from a " - Remastered" marker on) from
a title line; a suffix presupposes a non-empty base title, so a line that
is nothing but the marker is left alone. -/
def stripNoise (l : List Char) : List Char :=
  match cutAtSub noiseMark l with
  | some before => if (stripL before).isEmpty then l else stripL before
  | none => l

/-- Modelled from the spec: one emission decision of the
`parse_playlist_text` cursor loop (spec section 4.2), which is absent from
src/.  Blank lines are skipped; a non-blank line whose numbering-stripped
form is not a bare duration is a candidate title; a following line that
exists, is not blank (a blank line is skipped, never treated as text),
and is not a bare duration becomes the artist; the pair is then emitted
with the title stripped of suffix noise. -/
def lineEmit (l nxt : List Char) : Option Track :=
  let cur := stripL l
  if cur.isEmpty then none
  else
    let t := stripNumbering cur
    if isDuration t then none
    else
      let a := stripL nxt
      if isDuration a || a.isEmpty then none
      else
        let title := stripL (stripNoise t)
        if title.isEmpty then none
        else some (Track.mk (String.mk a) (String.mk title))

/-- Modelled from the spec: the cursor loop over the line list; on an
emission the cursor advances past title and artist lines plus an
immediately following duration line, otherwise it advances one line. -/
def parseLines : List (List Char) → List Track
  | [] => []
  | [_] => []
  | [l, nxt] =>
      match lineEmit l nxt with
      | some tr => [tr]
      | none => parseLines [nxt]
  | l :: nxt :: d :: rest =>
      match lineEmit l nxt with
      | some tr =>
          if isDuration (stripL d) then tr :: parseLines rest
          else tr :: parseLines (d :: rest)
      | none => parseLines (nxt :: d :: rest)

/-- Modelled from the spec: `parse_playlist_text` on the pasted text. -/
def parse_playlist_text (text : String) : List Track :=
  parseLines (splitChar '\n' text.data)

end MusicDL

namespace MusicDL

/-! ## Theorems -/

/-- C1: the terminal status assigned by `Job.update_from_result` is
`completed` when the summary's completed count is positive and its failed
count is zero, `completed_with_errors` when both counts are positive, and
`failed` when the completed count is zero, regardless of the failed
count. -/
theorem claim_C1_terminal_status (j : Job) (r : DLResult) (now : String) :
    (r.completed > 0 ∧ r.failed = 0 →
        (j.update_from_result r now).status = "completed") ∧
      (r.completed > 0 ∧ r.failed > 0 →
        (j.update_from_result r now).status = "completed_with_errors") ∧
      (r.completed = 0 → (j.update_from_result r now).status = "failed") := by
  have hs : (j.update_from_result r now).status =
      (if r.completed > 0 then
        if r.failed == 0 then "completed" else "completed_with_errors"
      else "failed") := rfl
  refine ⟨fun h => ?_, fun h => ?_, fun h => ?_⟩
  · obtain ⟨h1, h2⟩ := h
    rw [hs, if_pos h1, if_pos (by simp [h2])]
  · obtain ⟨h1, h2⟩ := h
    rw [hs, if_pos h1, if_neg (by simp only [beq_iff_eq]; omega)]
  · rw [hs, if_neg (by omega)]

/-- C1 witness: the three status rules evaluated at concrete result
summaries (5/0 completed, 3/2 completed_with_errors, 0/3 failed). -/
theorem claim_C1_terminal_status_witness :
    (jobW.update_from_result resW50 "t1").status = "completed" ∧
      (jobW.update_from_result resW32 "t1").status = "completed_with_errors" ∧
      (jobW.update_from_result resW03 "t1").status = "failed" :=
  ⟨(claim_C1_terminal_status jobW resW50 "t1").1 (by decide),
   (claim_C1_terminal_status jobW resW32 "t1").2.1 (by decide),
   (claim_C1_terminal_status jobW resW03 "t1").2.2 (by decide)⟩

/-- C9: the classifier `detect_input_type` is total and deterministic: on
every input string it returns a (category, cleaned text) pair whose
category is one of the seven known categories (totality of the embedded
function models the absence of exceptions: the one fallible library call,
urlparse, is guarded by `is_url`), and two runs on the same input agree. -/
theorem claim_C9_classifier_total_deterministic (s : String) :
    (detect_input_type s).1 ∈ allCategories ∧
      detect_input_type s = detect_input_type s := by
  refine ⟨?_, rfl⟩
  unfold detect_input_type detectFallThrough
  dsimp only
  split_ifs <;> simp [allCategories]

/-- C2 counterexample: the input "https://example.com" parses as an
absolute URL with both scheme and host (`is_url` is true on it), yet
`detect_input_type` classifies it as `search_query`: a URL whose host is
neither a YouTube nor a Spotify domain falls through to the non-URL
heuristics. -/
theorem claim_C2_counterexample :
    is_url (stripL ("https://example.com").data) = true ∧
      detect_input_type "https://example.com" =
        ("search_query", "https://example.com") := by
  constructor
  · decide
  · decide

/-- C2 amended: for every input whose stripped text parses as an absolute
URL with both scheme and host AND whose lower-cased host contains one of
the known domains (youtube.com, youtu.be, spotify.com), the classifier
returns one of the five URL-derived categories. -/
theorem claim_C2_amended_url_categories (s : String)
    (h1 : is_url (stripL s.data) = true)
    (h2 : (occursL ("youtube.com".data) (urlDomain (stripL s.data)) ||
           occursL ("youtu.be".data) (urlDomain (stripL s.data)) ||
           occursL ("spotify.com".data) (urlDomain (stripL s.data))) = true) :
    (detect_input_type s).1 ∈ urlCategories := by
  unfold detect_input_type
  simp only [h1, if_true]
  rcases hyt : (occursL ("youtube.com".data) (urlDomain (stripL s.data)) ||
      occursL ("youtu.be".data) (urlDomain (stripL s.data))) with _ | _
  · rcases hsp : occursL ("spotify.com".data) (urlDomain (stripL s.data)) with _ | _
    · rw [hyt, hsp] at h2
      simp at h2
    · simp only [hyt, hsp]
      split_ifs <;> simp [urlCategories]
  · simp only [hyt]
    split_ifs <;> simp [urlCategories]

/-- C2 amended, witness: a concrete YouTube URL satisfies both hypotheses
and lands in the URL-derived categories. -/
theorem claim_C2_amended_witness :
    (detect_input_type "https://youtube.com/watch?v=abc").1 ∈ urlCategories :=
  claim_C2_amended_url_categories "https://youtube.com/watch?v=abc"
    (by decide) (by decide)

/-- Every `download_search_query` summary has completed + failed = 1 and
total = 1, whatever branch the external calls take. -/
theorem download_search_query_counts (q : String) (o : SearchOutcome) (d : String) :
    (download_search_query q o d).completed + (download_search_query q o d).failed = 1 ∧
      (download_search_query q o d).total = 1 := by
  cases o <;> exact ⟨rfl, rfl⟩

/-- The `download_track_list` loop accumulates at most one completion or
failure per item. -/
theorem runTrackList_le (oracle : Nat → SearchOutcome) (d : String) :
    ∀ (ts : List Track) (i : Nat),
      (runTrackList oracle d ts i).1 + (runTrackList oracle d ts i).2.1 ≤ ts.length := by
  intro ts
  induction ts with
  | nil => intro i; simp [runTrackList]
  | cons t rest ih =>
      intro i
      simp only [runTrackList]
      split_ifs with h
      · have := ih i
        dsimp only
        simp only [List.length_cons]
        omega
      · have h2 := ih (i + 1)
        have h1 := (download_search_query_counts (t.artist ++ " " ++ t.title) (oracle i) d).1
        dsimp only
        simp only [List.length_cons]
        omega

/-- Every result summary the code can produce satisfies
completed + failed ≤ total. -/
theorem producible_counts (r : DLResult) (h : Producible r) :
    r.completed + r.failed ≤ r.total := by
  cases h with
  | search q o dir =>
      have := download_search_query_counts q o dir
      omega
  | trackList ts name o dir => exact runTrackList_le o dir ts 0
  | url u o dir =>
      obtain ⟨sp, so, yt⟩ := o
      simp only [download_url]
      split_ifs with h1 h2
      · cases sp with
        | none => simp
        | some l =>
            cases l with
            | nil => simp
            | cons t ts => exact runTrackList_le so dir (t :: ts) 0
      · simp
      · cases yt with
        | raisedEarly m => simp
        | noInfo => simp
        | playlistEntries n dl => cases dl <;> simp
        | single dl => cases dl <;> simp
  | unsupported ty => simp [unsupportedResult]

/-- C3: every job reachable through the public operations (creation,
status assignment, the failure handler, and result-summary application
with a summary the code can produce) keeps non-negative counters with
completed + failed ≤ total. -/
theorem claim_C3_counter_invariant (j : Job) (h : ReachableJob j) :
    0 ≤ j.total_tracks ∧ 0 ≤ j.completed_tracks ∧ 0 ≤ j.failed_tracks ∧
      j.completed_tracks + j.failed_tracks ≤ j.total_tracks := by
  refine ⟨Nat.zero_le _, Nat.zero_le _, Nat.zero_le _, ?_⟩
  induction h with
  | created store i ty val now => simp [create_job]
  | setStatus j s hj ih => exact ih
  | failMsg j m hj ih => exact ih
  | updated j r now hj hr ih => exact producible_counts r hr

/-- C3 witness: a freshly created job satisfies the counter invariant. -/
theorem claim_C3_counter_invariant_witness :
    (create_job [] "w2" "search_query" "q" "t0").1.completed_tracks +
        (create_job [] "w2" "search_query" "q" "t0").1.failed_tracks ≤
      (create_job [] "w2" "search_query" "q" "t0").1.total_tracks :=
  (claim_C3_counter_invariant _
    (ReachableJob.created [] "w2" "search_query" "q" "t0")).2.2.2

/-- A string built from a non-empty character list is not the empty
string. -/
theorem mk_ne_empty {l : List Char} (h : ¬ l.isEmpty = true) : String.mk l ≠ "" := by
  intro hc
  apply h
  have hdata : l = [] := by simpa using congrArg String.data hc
  simp [hdata]

/-- C5 counterexample: a reachable job (YouTube playlist of 5 entries
whose download call raised) has failed-count 5 but an empty
`failed_track_details` list, so `save_failed_tracks_csv` writes no file
even though the failed-item count is positive. -/
theorem claim_C5_counterexample :
    jobYtExn.failed_tracks = 5 ∧ save_failed_tracks_csv jobYtExn = none ∧
      ReachableJob jobYtExn :=
  ⟨rfl, rfl,
    ReachableJob.updated _ _ "t1"
      (ReachableJob.created [] "c5" "youtube_playlist"
        "https://youtube.com/playlist?list=PL1" "t0")
      (Producible.url "https://youtube.com/playlist?list=PL1" urlOracleYtExn
        "downloads")⟩

/-- C5 amended: `save_failed_tracks_csv` writes a file iff the job's
`failed_track_details` list is non-empty (not iff the failed counter is
positive), and when it writes, the data-row count equals the length of
that list. -/
theorem claim_C5_amended_export_rule (job : Job) :
    (save_failed_tracks_csv job = none ↔ job.failed_track_details = []) ∧
      (∀ rows, save_failed_tracks_csv job = some rows →
        rows.length = job.failed_track_details.length) := by
  unfold save_failed_tracks_csv
  constructor
  · split_ifs with h <;> simp_all
  · intro rows hr
    split_ifs at hr with h
    rw [← Option.some.inj hr]

/-- C5 amended, witness: a job with one failed search has a one-row
export. -/
theorem claim_C5_amended_witness :
    (save_failed_tracks_csv jobOneFailed = none ↔
        jobOneFailed.failed_track_details = []) ∧
      [FailedTrack.mk "Unknown" "q" "No search results found"].length =
        jobOneFailed.failed_track_details.length :=
  ⟨(claim_C5_amended_export_rule jobOneFailed).1,
   (claim_C5_amended_export_rule jobOneFailed).2 _ rfl⟩

/-- Every track emitted by one parse step of `_parse_playlist_response`
has a non-empty artist and a non-empty title. -/
theorem parseRespLine_fields (l : List Char) (t : Track)
    (h : parseRespLine l = some t) : t.artist ≠ "" ∧ t.title ≠ "" := by
  unfold parseRespLine at h
  dsimp only at h
  split_ifs at h with h1 h2 h3
  rcases hb : breakAtChar ',' ((stripL l).dropWhile respLstripSet) with _ | ⟨a, b⟩ <;>
    rw [hb] at h
  · exact Option.noConfusion h
  · dsimp only at h
    split_ifs at h with h4
    rw [← Option.some.inj h]
    rw [Bool.and_eq_true, Bool.not_eq_true', Bool.not_eq_true'] at h4
    exact ⟨mk_ne_empty (by simp [h4.1]), mk_ne_empty (by simp [h4.2])⟩

/-- C6 counterexample: with a requested count of 1 and a backend response
holding two well-formed lines, `generate_playlist` returns 2 pairs: the
claimed "at most N" bound is false because the parser never truncates. -/
theorem claim_C6_counterexample :
    generate_playlist "summer party" 1 (GenOutcome.resp 200 "A,B\nC,D") =
        some [Track.mk "A" "B", Track.mk "C" "D"] ∧
      ¬ ∀ ts, generate_playlist "summer party" 1 (GenOutcome.resp 200 "A,B\nC,D") =
          some ts → ts.length ≤ 1 :=
  ⟨by decide, fun h => by simpa using h [Track.mk "A" "B", Track.mk "C" "D"] (by decide)⟩

/-- C6 amended: for every backend response and requested count,
`generate_playlist` returns either `none` or a non-empty list of pairs in
which every pair has a non-empty artist and a non-empty title; the list's
length is not bounded by the requested count. -/
theorem claim_C6_amended_fields (vibe : String) (n : Nat) (o : GenOutcome)
    (ts : List Track) (h : generate_playlist vibe n o = some ts) :
    ts ≠ [] ∧ ∀ t ∈ ts, t.artist ≠ "" ∧ t.title ≠ "" := by
  unfold generate_playlist at h
  cases o with
  | timedOut => exact Option.noConfusion h
  | connFailed => exact Option.noConfusion h
  | raised m => exact Option.noConfusion h
  | resp status text =>
      dsimp only at h
      split_ifs at h with h1 h2 h3
      rw [← Option.some.inj h]
      refine ⟨by simpa using h3, ?_⟩
      intro t ht
      obtain ⟨l, _, hl⟩ := List.mem_filterMap.mp ht
      exact parseRespLine_fields l t hl

/-- C6 amended, witness: a concrete well-formed response yields one pair
with non-empty fields. -/
theorem claim_C6_amended_witness :
    [Track.mk "A" "B"] ≠ [] ∧
      ∀ t ∈ [Track.mk "A" "B"], t.artist ≠ "" ∧ t.title ≠ "" :=
  claim_C6_amended_fields "v" 2 (GenOutcome.resp 200 "A,B") [Track.mk "A" "B"]
    (by decide)

/-- A string list encoded as a JSON array decodes to itself. -/
theorem decodeStrList_round (l : List String) :
    decodeStrList (l.map JVal.jstr) = some l := by
  induction l with
  | nil => rfl
  | cons s rest ih => simp [decodeStrList, asStr, ih]

/-- A FailedTrack encoded with asdict decodes to itself. -/
theorem ftOfDict_round (t : FailedTrack) : ftOfDict (ftToDict t) = some t := by
  obtain ⟨a, b, c⟩ := t
  rfl

/-- A FailedTrack list encoded as a JSON array decodes to itself. -/
theorem decodeFtList_round (l : List FailedTrack) :
    decodeFtList (l.map ftToDict) = some l := by
  induction l with
  | nil => rfl
  | cons t rest ih => simp [decodeFtList, ftOfDict_round, ih]

/-- A Job survives the asdict / json / Job(**data) round trip unchanged. -/
theorem jobOfDict_round (j : Job) : jobOfDict (jobToDict j) = some j := by
  obtain ⟨ji, it, iv, st, tt, ct, ftc, em, od, ca, cp, fd⟩ := j
  cases cp <;>
    simp [jobToDict, jobOfDict, jGet, asStr, asNat, asOptStr,
      decodeStrList_round, decodeFtList_round]

/-- The full job map survives save then load unchanged. -/
theorem load_save_jobs (store : List (String × Job)) :
    load_jobs (save_jobs store) = store := by
  induction store with
  | nil => rfl
  | cons p rest ih =>
      obtain ⟨k, j⟩ := p
      simp only [save_jobs, load_jobs, List.map_cons, List.filterMap_cons,
        jobOfDict_round, Option.map_some']
      simp only [save_jobs, load_jobs] at ih
      rw [ih]

/-- Looking up a key just written finds the written job. -/
theorem lookupJob_set (store : List (String × Job)) (i : String) (j : Job) :
    lookupJob (setJob store i j) i = some j := by
  induction store with
  | nil => simp [setJob, lookupJob]
  | cons p rest ih =>
      obtain ⟨k, v⟩ := p
      by_cases h : (k == i) = true
      · simp [setJob, lookupJob, h]
      · simp [setJob, lookupJob, h, ih]

/-- C7: a job created by `create_job` is recovered unchanged (same id and
hence same status and counters, by full record equality) after the job
map is saved to durable storage and reloaded by a fresh manager. -/
theorem claim_C7_durability (store : List (String × Job))
    (freshId ty val now : String) :
    lookupJob (load_jobs (save_jobs (create_job store freshId ty val now).2))
        freshId = some (create_job store freshId ty val now).1 := by
  rw [load_save_jobs]
  exact lookupJob_set store freshId _

/-- The last write of a trace extended by one element is that element. -/
theorem lastD_append_single (d : Job) (ws : List Job) (x : Job) :
    lastD d (ws ++ [x]) = x := by
  induction ws with
  | nil => rfl
  | cons w rest ih =>
      simp only [List.cons_append, lastD]
      split
      · rename_i heq
        exact absurd heq (by simp)
      · exact ih

/-- The download/update/export tail of a task always performs at least
one write, and when a step raised, its final write is the job forced to
status `failed` with the exception text appended. -/
theorem taskTail_spec (writes : List Job) (j1 : Job) (ds : StepResult DLResult)
    (cs : Option String) (now : String) (d : Job) :
    (taskTail writes j1 ds cs now).1 ≠ [] ∧
      ∀ m, (taskTail writes j1 ds cs now).2 = some m →
        (lastD d (taskTail writes j1 ds cs now).1).status = "failed" ∧
          m ∈ (lastD d (taskTail writes j1 ds cs now).1).error_messages := by
  cases ds with
  | raised m0 =>
      refine ⟨by simp [taskTail], ?_⟩
      intro m hm
      simp only [taskTail] at hm ⊢
      have hmm : m0 = m := Option.some.inj hm
      subst hmm
      rw [lastD_append_single]
      exact ⟨rfl, by simp [failJob]⟩
  | ok r =>
      constructor
      · simp only [taskTail]
        split_ifs with hf
        · cases cs <;> simp
        · simp
      · intro m hm
        simp only [taskTail] at hm ⊢
        split_ifs at hm ⊢ with hf
        · cases cs with
          | none => exact Option.noConfusion hm
          | some m0 =>
              dsimp only at hm ⊢
              have hmm : m0 = m := Option.some.inj hm
              subst hmm
              have hsplit :
                  writes ++ [j1.update_from_result r now,
                    failJob (j1.update_from_result r now) m0] =
                  (writes ++ [j1.update_from_result r now]) ++
                    [failJob (j1.update_from_result r now) m0] := by simp
              rw [hsplit, lastD_append_single]
              exact ⟨rfl, by simp [failJob]⟩

/-- Every task body performs at least one job-store write, and a caught
exception forces the final write to status `failed` with the text
appended. -/
theorem runTaskBody_spec (job : Job) (tr : TaskRun) (now : String) (d : Job) :
    (runTaskBody job tr now).1 ≠ [] ∧
      ∀ m, (runTaskBody job tr now).2 = some m →
        (lastD d (runTaskBody job tr now).1).status = "failed" ∧
          m ∈ (lastD d (runTaskBody job tr now).1).error_messages := by
  cases tr with
  | dl o => exact taskTail_spec _ _ o.dlStep o.csvStep now d
  | trackList o => exact taskTail_spec _ _ o.dlStep o.csvStep now d
  | vibe o =>
      obtain ⟨gs, ds, cs⟩ := o
      cases gs with
      | none =>
          exact ⟨by simp [runTaskBody], fun m hm => Option.noConfusion hm⟩
      | some l =>
          cases l with
          | nil =>
              exact ⟨by simp [runTaskBody], fun m hm => Option.noConfusion hm⟩
          | cons t ts => exact taskTail_spec _ _ ds cs now d

/-- C4: for every background task run on a job present in the store and
every oracle behavior, the write trace is non-empty (every code path
through the task body ends in a job-store update), and whenever an
exception escapes the task body it is caught at the boundary: the final
write has terminal status `failed` with the exception text appended to
its error_messages. -/
theorem claim_C4_task_updates (store : List (String × Job)) (job_id : String)
    (job : Job) (tr : TaskRun) (now : String)
    (hfound : lookupJob store job_id = some job) :
    (runTask store job_id tr now).1 ≠ [] ∧
      ∀ m, (runTask store job_id tr now).2 = some m →
        (lastD job (runTask store job_id tr now).1).status = "failed" ∧
          m ∈ (lastD job (runTask store job_id tr now).1).error_messages := by
  have hrw : runTask store job_id tr now = runTaskBody job tr now := by
    simp [runTask, hfound]
  rw [hrw]
  exact runTaskBody_spec job tr now job

/-- C4 witness: a concrete store holding one job and a download task whose
downloader call raises "boom". -/
theorem claim_C4_task_updates_witness :
    (runTask storeW "w1" taskRunW "t1").1 ≠ [] ∧
      (lastD jobW (runTask storeW "w1" taskRunW "t1").1).status = "failed" ∧
      "boom" ∈ (lastD jobW (runTask storeW "w1" taskRunW "t1").1).error_messages := by
  have h := claim_C4_task_updates storeW "w1" jobW taskRunW "t1" (by decide)
  exact ⟨h.1, (h.2 "boom" (by decide)).1, (h.2 "boom" (by decide)).2⟩

/-- A track emitted by one step of the modelled playlist-text parser has
a non-empty artist and a non-empty title. -/
theorem lineEmit_fields (l nxt : List Char) (t : Track)
    (h : lineEmit l nxt = some t) : t.artist ≠ "" ∧ t.title ≠ "" := by
  unfold lineEmit at h
  dsimp only at h
  split_ifs at h with h1 h2 h3 h4
  rw [← Option.some.inj h]
  constructor
  · apply mk_ne_empty
    intro hem
    exact h3 (by simp [hem])
  · exact mk_ne_empty h4

/-- Every track returned by the modelled cursor loop has non-empty
fields. -/
theorem parseLines_fields (ls : List (List Char)) :
    ∀ t ∈ parseLines ls, t.artist ≠ "" ∧ t.title ≠ "" := by
  induction ls using parseLines.induct with
  | case1 => simp [parseLines]
  | case2 hd => simp [parseLines]
  | case3 l nxt tr h =>
      intro t ht
      simp only [parseLines, h, List.mem_singleton] at ht
      subst ht
      exact lineEmit_fields l nxt t h
  | case4 l nxt h ih =>
      intro t ht
      simp only [parseLines, h] at ht
      exact ih t ht
  | case5 l nxt d rest tr h hd ih =>
      intro t ht
      simp only [parseLines, h] at ht
      rw [if_pos hd] at ht
      rcases List.mem_cons.mp ht with h1 | h1
      · subst h1
        exact lineEmit_fields l nxt t h
      · exact ih t h1
  | case6 l nxt d rest tr h hd ih =>
      intro t ht
      simp only [parseLines, h] at ht
      rw [if_neg hd] at ht
      rcases List.mem_cons.mp ht with h1 | h1
      · subst h1
        exact lineEmit_fields l nxt t h
      · exact ih t h1
  | case7 l nxt d rest h ih =>
      intro t ht
      simp only [parseLines, h] at ht
      exact ih t ht

/-- C8: the playlist-text parser (modelled from the spec, since
`parse_playlist_text` is called on `MusicDownloader` in src/app.py and
src/cli_test.py but defined nowhere under src/) is a total function, so
it returns an ordered track list on every input without raising, and no
returned track has an empty artist or an empty title. -/
theorem claim_C8_parser_fields (text : String) (t : Track)
    (h : t ∈ parse_playlist_text text) : t.artist ≠ "" ∧ t.title ≠ "" :=
  parseLines_fields _ t h

/-- C8 witness: a concrete two-line paste parses to one track with
non-empty fields. -/
theorem claim_C8_parser_fields_witness :
    (Track.mk "MGMT" "Kids").artist ≠ "" ∧
      (Track.mk "MGMT" "Kids").title ≠ "" :=
  claim_C8_parser_fields "1. Kids\nMGMT" (Track.mk "MGMT" "Kids") (by decide)

/-- C10: on the empty track list, `download_track_list` returns a summary
with success = false and total = completed = failed = 0, because overall
success is the test completed > 0; a job updated from this summary ends
in terminal status `failed`. -/
theorem claim_C10_empty_track_list :
    resEmptyList.success = false ∧ resEmptyList.total = 0 ∧
      resEmptyList.completed = 0 ∧ resEmptyList.failed = 0 ∧
      (jobW.update_from_result resEmptyList "t1").status = "failed" :=
  ⟨rfl, rfl, rfl, rfl, rfl⟩

end MusicDL
